import Mathlib

/-!
Shallow embedding of the browser-event reduction pipeline
(`backend/app/services/...`) and proofs about its denoiser, breakpoint
detector, page aggregator, confidence scorer and workflow deduplicator.

Conventions of the embedding:
* Python `int` timestamps are `Int`; Python `float` arithmetic is modelled
  exactly over `ℚ`.
* Optional Python attributes are `Option` values; Python truthiness of a
  string (`if s:`) is `str_truthy` (`None` and `""` are falsy), of an int
  (`x or 0`) is `int_or`.
* `BrowserEvent.domain` is a derived attribute in the source (host of the
  `url`, lowercased, `None` when `url` is absent or unparsable).  The
  derivation itself (`urllib.parse.urlparse`) is outside every claim, so the
  embedding carries the derived value as a field.
* Each `while`-loop filter of the services scans the filter input by index;
  it is embedded as an index-driven `filterMap` over `List.range`.
-/

/-- Python truthiness of an optional string: `None` and `""` are falsy. -/
def str_truthy : Option String → Bool
  | none => false
  | some s => !s.isEmpty

/-- Python `s or dflt` for an optional string (falsy values replaced). -/
def str_or (o : Option String) (dflt : String) : String :=
  match o with
  | none => dflt
  | some s => if s.isEmpty then dflt else s

/-- Python `x or dflt` for an optional int (`None` and `0` are falsy). -/
def int_or (o : Option Int) (dflt : Int) : Int :=
  match o with
  | none => dflt
  | some n => if n = 0 then dflt else n

/-- Python `pat in s` substring test. -/
def py_substr (pat s : String) : Bool :=
  decide (List.IsInfix pat.toList s.toList)

/-- `ElementInfo` of `app/schemas/browser_events.py` (fields the pipeline reads). -/
structure ElementInfo where
  tag : String
  id : Option String
  class_name : Option String
  deriving DecidableEq, Repr, Inhabited

/-- `EventPayload` of `app/schemas/browser_events.py` (fields the pipeline reads). -/
structure EventPayload where
  element : Option ElementInfo
  text : Option String
  markdown : Option String
  deriving DecidableEq, Repr, Inhabited

/-- `BrowserEvent` of `app/schemas/browser_events.py`.  `domain` is the
derived host-of-url attribute (see module docstring). -/
structure BrowserEvent where
  id : String
  type : String
  timestamp : Int
  tab_id : Option Int
  window_id : Option Int
  url : Option String
  title : Option String
  payload : Option EventPayload
  domain : Option String
  deriving DecidableEq, Repr, Inhabited

/-- `BrowserEvent.is_page_load` property. -/
def BrowserEvent.is_page_load (e : BrowserEvent) : Bool :=
  decide (e.type = "page-load")

/-- Sort key used by every `sorted(events, key=lambda x: x.timestamp)`. -/
def ts_le : BrowserEvent → BrowserEvent → Prop :=
  fun a b => a.timestamp ≤ b.timestamp

instance : DecidableRel ts_le :=
  fun a b => inferInstanceAs (Decidable (a.timestamp ≤ b.timestamp))

instance : IsTotal BrowserEvent ts_le :=
  ⟨fun a b => le_total a.timestamp b.timestamp⟩

instance : IsTrans BrowserEvent ts_le :=
  ⟨fun _ _ _ h1 h2 => le_trans h1 h2⟩

/-- Python's `sorted` is a stable sort by key; `List.insertionSort` with the
non-strict timestamp order is extensionally the same stable sort. -/
def sort_by_timestamp (events : List BrowserEvent) : List BrowserEvent :=
  List.insertionSort ts_le events

namespace DenoiseService

/-- `self.rapid_click_threshold_ms`. -/
def rapid_click_threshold_ms : Int := 200

/-- `self.transient_tab_switch_threshold_ms`. -/
def transient_tab_switch_threshold_ms : Int := 2000

/-- `self.accidental_event_threshold_ms`. -/
def accidental_event_threshold_ms : Int := 100

/-- `self.max_consecutive_same_element_clicks`. -/
def max_consecutive_same_element_clicks : Nat := 3

/-- `DenoiseService._is_same_element`. -/
def is_same_element (e1 e2 : BrowserEvent) : Bool :=
  match e1.payload, e2.payload with
  | some p1, some p2 =>
    match p1.element, p2.element with
    | some elem1, some elem2 =>
      (str_truthy elem1.id && str_truthy elem2.id && decide (elem1.id = elem2.id)) ||
      (decide (elem1.tag = elem2.tag) && str_truthy elem1.class_name &&
        str_truthy elem2.class_name && decide (elem1.class_name = elem2.class_name))
    | _, _ => false
  | _, _ => false

/-- `DenoiseService._is_rapid_click`. -/
def is_rapid_click (event : BrowserEvent) (events : List BrowserEvent) (index : Nat) : Bool :=
  if event.type ≠ "click" ∨ index = 0 then false
  else
    let previous_event := events.getD (index - 1) default
    if previous_event.type ≠ "click" then false
    else if rapid_click_threshold_ms < event.timestamp - previous_event.timestamp then false
    else is_same_element event previous_event

/-- `DenoiseService._is_transient_tab_switch` (looks ahead over
`range(index + 1, min(index + 5, len(events)))`). -/
def is_transient_tab_switch (event : BrowserEvent) (events : List BrowserEvent) (index : Nat) : Bool :=
  if event.type ≠ "tab-switch" then false
  else
    (List.range' (index + 1) (min (index + 5) events.length - (index + 1))).any fun i =>
      let next_event := events.getD i default
      decide (next_event.type = "tab-switch") &&
        decide (next_event.timestamp - event.timestamp < transient_tab_switch_threshold_ms)

/-- `DenoiseService._is_accidental_event`: the gap is taken to the event at
`index - 1` of the filter input (not to the last retained event). -/
def is_accidental_event (event : BrowserEvent) (events : List BrowserEvent) (index : Nat) : Bool :=
  if index = 0 then false
  else
    let previous_event := events.getD (index - 1) default
    decide (event.timestamp - previous_event.timestamp < accidental_event_threshold_ms)

/-- Indices visited by `range(index - 1, max(0, index - 10), -1)` in
`_is_excessive_consecutive_clicking` (descending, lower bound excluded). -/
def back_indices (index : Nat) : List Nat :=
  (List.range' (index - 10 + 1) (index - 1 - (index - 10))).reverse

/-- The backward consecutive-click count of `_is_excessive_consecutive_clicking`
(the Python loop breaks at the first non-matching event). -/
def consecutive_from (event : BrowserEvent) (events : List BrowserEvent) : List Nat → Nat
  | [] => 0
  | i :: rest =>
    let prev_event := events.getD i default
    if decide (prev_event.type = "click") && is_same_element event prev_event then
      1 + consecutive_from event events rest
    else 0

/-- `DenoiseService._is_excessive_consecutive_clicking`. -/
def is_excessive_consecutive_clicking (event : BrowserEvent) (events : List BrowserEvent)
    (index : Nat) : Bool :=
  if event.type ≠ "click" then false
  else
    let consecutive_count := 1 + consecutive_from event events (back_indices index)
    decide (max_consecutive_same_element_clicks < consecutive_count)

/-- `DenoiseService._is_focus_blur_noise`. -/
def is_focus_blur_noise (event : BrowserEvent) (events : List BrowserEvent) (index : Nat) : Bool :=
  if event.type ≠ "focus" ∧ event.type ≠ "blur" then false
  else if index = 0 then false
  else
    let prev_event := events.getD (index - 1) default
    (decide (prev_event.type = "focus") || decide (prev_event.type = "blur")) &&
      decide (event.type ≠ prev_event.type) &&
      decide (event.timestamp - prev_event.timestamp < 500)

/-- The shared shape of the five `while`-loop filters: keep `events[i]`
unless the predicate fires at `i`; lists of fewer than two events are
returned unchanged. -/
def apply_filter (pred : BrowserEvent → List BrowserEvent → Nat → Bool)
    (events : List BrowserEvent) : List BrowserEvent :=
  if events.length < 2 then events
  else
    (List.range events.length).filterMap fun i =>
      let e := events.getD i default
      if pred e events i then none else some e

/-- `DenoiseService._remove_rapid_clicks`. -/
def remove_rapid_clicks : List BrowserEvent → List BrowserEvent :=
  apply_filter is_rapid_click

/-- `DenoiseService._remove_transient_tab_switches`. -/
def remove_transient_tab_switches : List BrowserEvent → List BrowserEvent :=
  apply_filter is_transient_tab_switch

/-- `DenoiseService._remove_accidental_events`. -/
def remove_accidental_events : List BrowserEvent → List BrowserEvent :=
  apply_filter is_accidental_event

/-- `DenoiseService._remove_consecutive_same_element_clicks`. -/
def remove_consecutive_same_element_clicks : List BrowserEvent → List BrowserEvent :=
  apply_filter is_excessive_consecutive_clicking

/-- `DenoiseService._remove_focus_blur_noise`. -/
def remove_focus_blur_noise : List BrowserEvent → List BrowserEvent :=
  apply_filter is_focus_blur_noise

/-- `DenoiseService.denoise_events`: stable sort by timestamp, then the five
filters in their fixed order. -/
def denoise_events (events : List BrowserEvent) : List BrowserEvent :=
  if events = [] then events
  else
    remove_focus_blur_noise
      (remove_consecutive_same_element_clicks
        (remove_accidental_events
          (remove_transient_tab_switches
            (remove_rapid_clicks (sort_by_timestamp events)))))

end DenoiseService

/-- `PageSession` of `app/schemas/page_sessions.py`. -/
structure PageSession where
  url : String
  title : String
  start_time : Int
  end_time : Int
  duration_ms : Int
  content_summary : String
  event_count : Nat
  domain : Option String
  tab_id : Option Int
  segment_type : String
  tool_categories : List String
  deriving DecidableEq, Repr, Inhabited

namespace PageService

/-- `self.min_page_duration_ms`. -/
def min_page_duration_ms : Int := 1000

/-- `self.rapid_click_threshold_ms`. -/
def rapid_click_threshold_ms : Int := 200

/-- `self.accidental_event_threshold_ms`. -/
def accidental_event_threshold_ms : Int := 100

/-- `PageService._is_rapid_click`: same scaffold as the denoiser's rule but
"same element" is equality of `url` and `tab_id`. -/
def is_rapid_click (event : BrowserEvent) (events : List BrowserEvent) (index : Nat) : Bool :=
  if event.type ≠ "click" ∨ index = 0 then false
  else
    let previous_event := events.getD (index - 1) default
    if previous_event.type ≠ "click" then false
    else if rapid_click_threshold_ms < event.timestamp - previous_event.timestamp then false
    else decide (event.url = previous_event.url) && decide (event.tab_id = previous_event.tab_id)

/-- `PageService._is_accidental_event`. -/
def is_accidental_event (event : BrowserEvent) (events : List BrowserEvent) (index : Nat) : Bool :=
  if index = 0 then false
  else
    let previous_event := events.getD (index - 1) default
    decide (event.timestamp - previous_event.timestamp < accidental_event_threshold_ms)

/-- `PageService._is_focus_blur_noise`. -/
def is_focus_blur_noise (event : BrowserEvent) (events : List BrowserEvent) (index : Nat) : Bool :=
  if event.type ≠ "focus" ∧ event.type ≠ "blur" then false
  else if index = 0 then false
  else
    let prev_event := events.getD (index - 1) default
    (decide (prev_event.type = "focus") || decide (prev_event.type = "blur")) &&
      decide (event.type ≠ prev_event.type) &&
      decide (event.timestamp - prev_event.timestamp < 500)

/-- `PageService._denoise_page_events`: one index-driven pass applying the
three page-local predicates. -/
def denoise_page_events (events : List BrowserEvent) : List BrowserEvent :=
  if events.length < 2 then events
  else
    (List.range events.length).filterMap fun i =>
      let e := events.getD i default
      if is_rapid_click e events i then none
      else if is_accidental_event e events i then none
      else if is_focus_blur_noise e events i then none
      else some e

/-- The grouping key `f"{event.url or 'unknown'}:{event.tab_id or 0}"`. -/
def page_key (e : BrowserEvent) : String :=
  str_or e.url "unknown" ++ ":" ++ toString (int_or e.tab_id 0)

/-- Keys of a `dict` built by insertion: first-occurrence order, no repeats. -/
def first_occ_keys_from (seen : List String) : List BrowserEvent → List String
  | [] => []
  | e :: es =>
    if page_key e ∈ seen then first_occ_keys_from seen es
    else page_key e :: first_occ_keys_from (page_key e :: seen) es

/-- Key sequence of `PageService._group_events_by_page`. -/
def first_occ_keys (events : List BrowserEvent) : List String :=
  first_occ_keys_from [] events

/-- `PageService._group_events_by_page`: per-key event lists (input order)
each stably sorted by timestamp. -/
def group_events_by_page (events : List BrowserEvent) : List (List BrowserEvent) :=
  (first_occ_keys events).map fun k =>
    sort_by_timestamp (events.filter fun e => decide (page_key e = k))

/-- Loop body of `PageService._summarize_page_content`.  In the source the
body evaluates `event.payload.get("markdown", "")`, but `payload` is the
pydantic `EventPayload` model, which has no `.get` method, so the first event
with a payload raises `AttributeError`; the accumulator `content_parts` can
therefore never grow and the joins below the loop run only on the empty
accumulator. -/
def summarize_go : List BrowserEvent → List String → Except String String
  | [], content_parts =>
    .ok (if content_parts.isEmpty then "No content available"
         else String.intercalate " | " content_parts.reverse)
  | e :: es, content_parts =>
    match e.payload with
    | some _ => .error "AttributeError: EventPayload object has no attribute get"
    | none => summarize_go es content_parts

/-- `PageService._summarize_page_content`. -/
def summarize_page_content (events : List BrowserEvent) : Except String String :=
  summarize_go events []

/-- `PageService._create_page_summary`; `Except` models the uncaught
`AttributeError` of `_summarize_page_content`. -/
def create_page_summary (events : List BrowserEvent) : Except String (Option PageSession) :=
  if events = [] then .ok none
  else
    let denoised := denoise_page_events events
    if denoised = [] then .ok none
    else
      let first_event := denoised.headD default
      let last_event := denoised.getLastD default
      let duration_ms := last_event.timestamp - first_event.timestamp
      if duration_ms < min_page_duration_ms then .ok none
      else
        match summarize_page_content denoised with
        | .error e => .error e
        | .ok content_summary =>
          .ok (some
            { url := str_or first_event.url "unknown"
              title := str_or first_event.title "Unknown Page"
              start_time := first_event.timestamp
              end_time := last_event.timestamp
              duration_ms := duration_ms
              content_summary := content_summary
              event_count := events.length
              domain := first_event.domain
              tab_id := first_event.tab_id
              segment_type := "unknown"
              tool_categories := [] })

/-- The per-group loop of `PageService.group_events_into_page_sessions`. -/
def page_sessions_go : List (List BrowserEvent) → Except String (List PageSession)
  | [] => .ok []
  | g :: gs =>
    match create_page_summary g with
    | .error e => .error e
    | .ok none => page_sessions_go gs
    | .ok (some s) =>
      match page_sessions_go gs with
      | .error e => .error e
      | .ok rest => .ok (s :: rest)

/-- `PageService.group_events_into_page_sessions`. -/
def group_events_into_page_sessions (events : List BrowserEvent) :
    Except String (List PageSession) :=
  if events = [] then .ok []
  else page_sessions_go (group_events_by_page events)

end PageService

namespace BreakpointDetector

/-- `self.large_time_gap_ms`. -/
def large_time_gap_ms : Int := 120000

/-- `self.task_completion_signals`. -/
def task_completion_signals : List String :=
  ["form_submit", "purchase_complete", "checkout_success", "signup_complete",
   "login_success", "download_complete"]

/-- `completion_patterns` of `_is_task_completion` (duplicates kept as in the
source). -/
def completion_patterns : List String :=
  ["success", "complete", "thank", "confirmation", "receipt", "order-confirmed",
   "payment-success", "order-completed", "order-shipped", "order-delivered",
   "order-received", "order-paid", "order-confirmed", "order-completed"]

/-- `self.context_switch_indicators`. -/
def context_switch_indicators : List String := ["tab-switch", "window-focus", "app-switch"]

/-- `BreakpointDetector._is_domain_change`. -/
def is_domain_change (current previous : BrowserEvent) : Bool :=
  if !str_truthy current.domain || !str_truthy previous.domain then false
  else decide (current.domain ≠ previous.domain)

/-- `BreakpointDetector._is_large_time_gap`. -/
def is_large_time_gap (current previous : BrowserEvent) : Bool :=
  decide (large_time_gap_ms < current.timestamp - previous.timestamp)

/-- `BreakpointDetector._is_task_completion`. -/
def is_task_completion (event : BrowserEvent) : Bool :=
  if decide (event.type ∈ task_completion_signals) then true
  else if (match event.url with
           | some u => !u.isEmpty && completion_patterns.any fun p => py_substr p u.toLower
           | none => false) then true
  else
    match event.title with
    | some t => !t.isEmpty && completion_patterns.any fun p => py_substr p t.toLower
    | none => false

/-- `BreakpointDetector._is_context_switch`. -/
def is_context_switch (current previous : BrowserEvent) : Bool :=
  if decide (current.type ∈ context_switch_indicators) then true
  else
    decide (current.type = "tab-switch") && decide (current.tab_id ≠ previous.tab_id) &&
      decide (5000 < current.timestamp - previous.timestamp)

/-- `BreakpointDetector._is_significant_page_load` (looks back over
`range(max(0, index - 20), index)`). -/
def is_significant_page_load (event : BrowserEvent) (events : List BrowserEvent)
    (index : Nat) : Bool :=
  if !event.is_page_load then false
  else
    let start_time := event.timestamp - 30000
    let activity_count :=
      (List.range' (index - 20) (index - (index - 20))).countP fun i =>
        let prev_event := events.getD i default
        decide (start_time ≤ prev_event.timestamp) &&
          decide (prev_event.type ∈ ["click", "type", "highlight", "copy", "paste"])
    decide (5 ≤ activity_count)

/-- Disjunction of the five break tests of `_identify_break_points` at index
`i` (the source checks them in priority order and appends `i` once if any
fires, so membership of `i` in the break list is exactly this disjunction). -/
def should_break (events : List BrowserEvent) (i : Nat) : Bool :=
  let current := events.getD i default
  let previous := events.getD (i - 1) default
  is_domain_change current previous || is_large_time_gap current previous ||
    is_task_completion current || is_context_switch current previous ||
    is_significant_page_load current events i

/-- `BreakpointDetector._identify_break_points`. -/
def identify_break_points (events : List BrowserEvent) : List Nat :=
  if events.length < 2 then [0, events.length]
  else ([0] ++ (List.range' 1 (events.length - 1)).filter (should_break events)) ++
    [events.length]

/-- Loop of `BreakpointDetector._create_segments` over adjacent break-point
pairs. -/
def create_segments_go (events : List BrowserEvent) : List Nat → List (List BrowserEvent)
  | a :: b :: rest =>
    let segment_events := (events.drop a).take (b - a)
    (if b - a < 1 then []
     else if segment_events.length < 2 then []
     else [segment_events]) ++ create_segments_go events (b :: rest)
  | _ => []

/-- `BreakpointDetector._create_segments`. -/
def create_segments (events : List BrowserEvent) (break_points : List Nat) :
    List (List BrowserEvent) :=
  create_segments_go events break_points

/-- `BreakpointDetector.detect_breakpoints`. -/
def detect_breakpoints (events : List BrowserEvent) : List (List BrowserEvent) :=
  if events = [] then []
  else
    let sorted_events := sort_by_timestamp events
    create_segments sorted_events (identify_break_points sorted_events)

end BreakpointDetector

/-- `EventSegment` of `app/schemas/browser_events.py` (fields read by the
confidence scorer). -/
structure EventSegment where
  start_time : Int
  end_time : Int
  duration_ms : Int
  event_types : List String
  segment_type : String
  deriving DecidableEq, Repr, Inhabited

namespace EventSegmentationService

/-- `self.event_weights` with the implicit `.get(type, 1.0)` default. -/
def event_weights (t : String) : ℚ :=
  if t = "page-load" then 3
  else if t = "click" then 2
  else if t = "type" then 5/2
  else if t = "highlight" then 3/2
  else if t = "copy" then 2
  else if t = "paste" then 2
  else if t = "tab-switch" then 1
  else if t = "tab-removal" then 1/2
  else 1

/-- `type_bonuses` of `_calculate_confidence_scores` with the `.get(type, 1.0)`
default. -/
def type_bonuses (t : String) : ℚ :=
  if t = "form_filling" then 3/2
  else if t = "navigation" then 6/5
  else if t = "content_interaction" then 13/10
  else if t = "search" then 7/5
  else if t = "mixed_activity" then 11/10
  else 1

/-- The event-type weight sum accumulated by the scorer's first loop. -/
def base_score (event_types : List String) : ℚ :=
  event_types.foldl (fun s t => s + event_weights t) 0

/-- The scorer's value before the final normalisation: weight sum times
duration multiplier times classification bonus. -/
def raw_score (segment : EventSegment) : ℚ :=
  base_score segment.event_types * (1 + (segment.duration_ms : ℚ) / 60000 * (1/10)) *
    type_bonuses segment.segment_type

/-- The per-segment score assignment of
`EventSegmentationService._calculate_confidence_scores`. -/
def calculate_confidence_score (segment : EventSegment) : ℚ :=
  min (raw_score segment / 20) 1

end EventSegmentationService

/-- `WorkflowStepSchema` of `app/schemas/workflows.py` (fields the
deduplicator reads). -/
structure WorkflowStepSchema where
  description : String
  step_type : String
  tools : Option (List String)
  context_description : Option String
  deriving DecidableEq, Repr, Inhabited

/-- `WorkflowSchema` of `app/schemas/workflows.py` (fields the deduplicator
reads). -/
structure WorkflowSchema where
  summary : String
  steps : List WorkflowStepSchema
  domain : Option String
  url_pattern : Option String
  deriving DecidableEq, Repr, Inhabited

/-- One entry of the compact existing-workflow records that
`_compare_batch_against_existing` feeds to the oracle. -/
structure ExistingCompact where
  id : String
  summary : String
  domain : String
  url_pattern : String
  step_types : List String
  deriving DecidableEq, Repr, Inhabited

namespace WorkflowDeduplicator

/-- Outcome of one similarity-oracle call: the call raised, the response was
not parsable as JSON, or it parsed to a `groups` partition (indices into the
workflow list sent). -/
inductive OracleOutcome where
  | call_failed
  | unparsable (raw : String)
  | parsed (groups : List (List Nat))
  deriving DecidableEq, Repr, Inhabited

/-- `WorkflowDeduplicator._calculate_workflow_quality_score`. -/
def calculate_workflow_quality_score (workflow : WorkflowSchema) : ℚ :=
  let step_score : ℚ := (workflow.steps.length : ℚ) * (1/10)
  let tool_count : Nat := (workflow.steps.map fun step => (step.tools.getD []).length).sum
  let tool_score : ℚ := (tool_count : ℚ) * (1/5)
  let summary_score : ℚ := (workflow.summary.length : ℚ) * (1/100)
  let url_score : ℚ :=
    if str_truthy workflow.url_pattern && !py_substr "*" (workflow.url_pattern.getD "") then 1/2
    else 0
  step_score + tool_score + summary_score + url_score

/-- The scan of `_select_best_workflow_from_group` over `workflows[1:]`,
updating only on a strictly larger score. -/
def select_best_aux (best : WorkflowSchema) : List WorkflowSchema → WorkflowSchema
  | [] => best
  | w :: ws =>
    if calculate_workflow_quality_score best < calculate_workflow_quality_score w then
      select_best_aux w ws
    else select_best_aux best ws

/-- `WorkflowDeduplicator._select_best_workflow_from_group` (`none` only for
the empty list, which the source never passes). -/
def select_best_workflow_from_group : List WorkflowSchema → Option WorkflowSchema
  | [] => none
  | [w] => some w
  | w :: ws => some (select_best_aux w ws)

/-- `WorkflowDeduplicator._analyze_workflow_similarities`: the parsed
`groups`, or one singleton group per workflow when the call failed or the
response was unparsable. -/
def analyze_workflow_similarities (n : Nat) (outcome : OracleOutcome) : List (List Nat) :=
  match outcome with
  | .parsed groups => groups
  | _ => (List.range n).map fun i => [i]

/-- Group loop of `WorkflowDeduplicator._process_similarity_analysis`
(indices modelled as naturals; out-of-range indices are skipped as in the
source's `if i < len(workflows)` guard). -/
def process_go (workflows : List WorkflowSchema) : List (List Nat) → List WorkflowSchema
  | [] => []
  | group :: groups =>
    if group = [] then process_go workflows groups
    else
      match group.filterMap (fun i => workflows[i]?) with
      | [] => process_go workflows groups
      | [w] => w :: process_go workflows groups
      | w :: ws => select_best_aux w ws :: process_go workflows groups

/-- `WorkflowDeduplicator._process_similarity_analysis`. -/
def process_similarity_analysis (workflows : List WorkflowSchema)
    (analysis_groups : List (List Nat)) : List WorkflowSchema :=
  process_go workflows analysis_groups

/-- `WorkflowDeduplicator._deduplicate_within_domain_llm` for one oracle
call with the given outcome. -/
def deduplicate_within_domain (workflows : List WorkflowSchema) (outcome : OracleOutcome) :
    List WorkflowSchema :=
  if workflows.length ≤ 1 then workflows
  else process_similarity_analysis workflows (analyze_workflow_similarities workflows.length outcome)

/-- `WorkflowDeduplicator._analyze_batch_deduplication` reduced to its
returned `unique_indices`: indices of new workflows in no parsed group, or
all of `range(len(new_workflows))` when the call failed or the response was
unparsable. -/
def analyze_batch_deduplication (n : Nat) (outcome : OracleOutcome) : List Nat :=
  match outcome with
  | .parsed groups =>
    let grouped_new_indices := groups.flatten.filter fun idx => decide (idx < n)
    (List.range n).filter fun i => decide (i ∉ grouped_new_indices)
  | _ => List.range n

/-- Chunk loop of `WorkflowDeduplicator._compare_batch_against_existing`;
`oracle` abstracts one LLM call per existing-workflow chunk. -/
def compare_batch_go (oracle : List WorkflowSchema → List ExistingCompact → OracleOutcome)
    (remaining : List WorkflowSchema) :
    List (List ExistingCompact) → List WorkflowSchema
  | [] => remaining
  | chunk :: chunks =>
    if remaining = [] then remaining
    else
      let unique_indices := analyze_batch_deduplication remaining.length (oracle remaining chunk)
      compare_batch_go oracle (unique_indices.filterMap fun j => remaining[j]?) chunks

/-- `WorkflowDeduplicator._compare_batch_against_existing` (the existing
workflows arrive already cut into chunks of `existing_batch_size`). -/
def compare_batch_against_existing
    (oracle : List WorkflowSchema → List ExistingCompact → OracleOutcome)
    (new_batch : List WorkflowSchema) (existing_chunks : List (List ExistingCompact)) :
    List WorkflowSchema :=
  compare_batch_go oracle new_batch existing_chunks

end WorkflowDeduplicator

/-!
Claim-side models (written from the spec's words, to be compared with the
source embedding) and concrete inputs used by counterexamples and witnesses.
-/

/-- Claim model (C2): scan of the accidental filter as the spec words it,
measuring each gap against the immediately preceding RETAINED event. -/
def claim_accidental_go (last_retained : BrowserEvent) : List BrowserEvent → List BrowserEvent
  | [] => []
  | e :: es =>
    if e.timestamp - last_retained.timestamp < DenoiseService.accidental_event_threshold_ms then
      claim_accidental_go last_retained es
    else e :: claim_accidental_go e es

/-- Claim model (C2): the accidental filter per the spec sentence (first
event always kept, gaps taken to the last retained event). -/
def claim_accidental_filter : List BrowserEvent → List BrowserEvent
  | [] => []
  | e :: es => e :: claim_accidental_go e es

/-- Amended model (C2): scan measuring each gap against the immediately
preceding event of the filter INPUT, retained or not. -/
def amended_accidental_go (previous : BrowserEvent) : List BrowserEvent → List BrowserEvent
  | [] => []
  | e :: es =>
    if e.timestamp - previous.timestamp < DenoiseService.accidental_event_threshold_ms then
      amended_accidental_go e es
    else e :: amended_accidental_go e es

/-- Amended model (C2): the accidental filter with input-predecessor gaps. -/
def amended_accidental_filter : List BrowserEvent → List BrowserEvent
  | [] => []
  | e :: es => e :: amended_accidental_go e es

/-- Claim model (C3): the page-local rapid-click rule as the claim words it,
i.e. the denoiser's element-identity rule of section 4.1. -/
def claim_page_rapid_click (event previous : BrowserEvent) : Bool :=
  decide (event.type = "click") && decide (previous.type = "click") &&
    decide (event.timestamp - previous.timestamp ≤ PageService.rapid_click_threshold_ms) &&
    DenoiseService.is_same_element event previous

/-- Amended model (C3): the page-local rapid-click rule with "same element"
replaced by equality of `url` and `tab_id`. -/
def amended_page_rapid_click (event previous : BrowserEvent) : Bool :=
  decide (event.type = "click") && decide (previous.type = "click") &&
    decide (event.timestamp - previous.timestamp ≤ PageService.rapid_click_threshold_ms) &&
    decide (event.url = previous.url) && decide (event.tab_id = previous.tab_id)

/-- Whether the `(url, tab_id)` page group of event `e` inside `events`
survives the page aggregator's drop filters (C5). -/
def page_group_survived (events : List BrowserEvent) (e : BrowserEvent) : Bool :=
  match PageService.create_page_summary
      (sort_by_timestamp (events.filter fun x =>
        decide (PageService.page_key x = PageService.page_key e))) with
  | .ok (some _) => true
  | _ => false

/-- Neutral event record used to build the concrete inputs below. -/
def base_event : BrowserEvent :=
  { id := "e", type := "type", timestamp := 0, tab_id := none, window_id := none,
    url := none, title := none, payload := none, domain := none }

/-- A button-click payload on element id `btn1`. -/
def btn1_payload : EventPayload :=
  { element := some { tag := "button", id := some "btn1", class_name := none },
    text := none, markdown := none }

/-- C1 input: click on `btn1` at 0ms. -/
def c1X : BrowserEvent :=
  { base_event with
    id := "c1X"
    type := "click"
    tab_id := some 1
    url := some "https://a.com"
    domain := some "a.com"
    payload := some btn1_payload }

/-- C1 input: tab switch at 100ms (transient: another switch follows within
2000ms). -/
def c1Z : BrowserEvent :=
  { base_event with
    id := "c1Z"
    type := "tab-switch"
    timestamp := 100
    tab_id := some 2 }

/-- C1 input: click on `btn1` at 200ms. -/
def c1Y : BrowserEvent :=
  { c1X with
    id := "c1Y"
    timestamp := 200 }

/-- C1 input: tab switch at 2000ms. -/
def c1W : BrowserEvent :=
  { base_event with
    id := "c1W"
    type := "tab-switch"
    timestamp := 2000
    tab_id := some 2 }

/-- C1 counterexample input. -/
def c1_events : List BrowserEvent := [c1X, c1Z, c1Y, c1W]

/-- C2 counterexample events at 0ms, 50ms and 120ms. -/
def c2e0 : BrowserEvent := { base_event with id := "c2e0" }

/-- C2: second event, 50ms after the first. -/
def c2e1 : BrowserEvent := { base_event with id := "c2e1", timestamp := 50 }

/-- C2: third event, 120ms after the first but 70ms after the second. -/
def c2e2 : BrowserEvent := { base_event with id := "c2e2", timestamp := 120 }

/-- C3 counterexample: click on element id `b1`. -/
def c3e1 : BrowserEvent :=
  { base_event with
    id := "c3e1"
    type := "click"
    tab_id := some 1
    url := some "https://a.com"
    domain := some "a.com"
    payload := some { element := some { tag := "button", id := some "b1", class_name := none },
                      text := none, markdown := none } }

/-- C3 counterexample: click on a DIFFERENT element (id `b2`), same page,
100ms later. -/
def c3e2 : BrowserEvent :=
  { c3e1 with
    id := "c3e2"
    timestamp := 100
    payload := some { element := some { tag := "button", id := some "b2", class_name := none },
                      text := none, markdown := none } }

/-- C4 failing input: an event whose payload carries a markdown fragment. -/
def c4e1 : BrowserEvent :=
  { base_event with
    id := "c4e1"
    type := "click"
    tab_id := some 1
    url := some "https://a.com"
    domain := some "a.com"
    payload := some { element := none, text := none, markdown := some "hello" } }

/-- C4 failing input: payload-free companion event 2000ms later, so the page
group passes the duration filter and reaches the summariser. -/
def c4e2 : BrowserEvent :=
  { base_event with
    id := "c4e2"
    type := "click"
    timestamp := 2000
    tab_id := some 1
    url := some "https://a.com"
    domain := some "a.com" }

/-- C5 witness: first event of the surviving `a.com` group. -/
def c5a1 : BrowserEvent :=
  { base_event with
    id := "c5a1"
    type := "click"
    tab_id := some 1
    url := some "https://a.com"
    title := some "A"
    domain := some "a.com" }

/-- C5 witness: second event of the `a.com` group, 2000ms later. -/
def c5a2 : BrowserEvent :=
  { c5a1 with
    id := "c5a2"
    timestamp := 2000 }

/-- C5 witness: lone event of the `b.com` group (dropped: zero duration). -/
def c5b1 : BrowserEvent :=
  { base_event with
    id := "c5b1"
    type := "click"
    timestamp := 100
    tab_id := some 2
    url := some "https://b.com"
    title := some "B"
    domain := some "b.com" }

/-- C5 witness input: two interleaved page groups. -/
def c5_events : List BrowserEvent := [c5a1, c5b1, c5a2]

/-- C5 witness: the page session produced for the surviving `a.com` group. -/
def c5_session : PageSession :=
  { url := "https://a.com", title := "A", start_time := 0, end_time := 2000,
    duration_ms := 2000, content_summary := "No content available", event_count := 2,
    domain := some "a.com", tab_id := some 1, segment_type := "unknown",
    tool_categories := [] }

/-- C6/C7 witness: a browser-context step. -/
def ctx_step : WorkflowStepSchema :=
  { description := "open page", step_type := "browser_context", tools := none,
    context_description := some "the page" }

/-- C6 witness: a workflow duplicated verbatim in the batch. -/
def c6_wf : WorkflowSchema :=
  { summary := "Do the thing", steps := [ctx_step, ctx_step],
    domain := some "a.com", url_pattern := some "https://a.com/x" }

/-- C6 witness: one existing compact record for the same domain. -/
def c6_existing : ExistingCompact :=
  { id := "w1", summary := "Do the thing", domain := "a.com",
    url_pattern := "https://a.com/x", step_types := ["browser_context", "browser_context"] }

/-- C7 witness: workflow with the lower quality score. -/
def c7_wa : WorkflowSchema :=
  { summary := "Short", steps := [ctx_step, ctx_step], domain := some "a.com",
    url_pattern := none }

/-- C7 witness: workflow with the higher quality score (specific URL pattern). -/
def c7_wb : WorkflowSchema :=
  { summary := "Longer summary", steps := [ctx_step, ctx_step], domain := some "a.com",
    url_pattern := some "https://a.com/x" }

/-- C8 witness: `a.com` event at 0ms. -/
def c8e1 : BrowserEvent :=
  { base_event with
    id := "c8e1"
    type := "click"
    url := some "https://a.com"
    domain := some "a.com" }

/-- C8 witness: `a.com` event at 1000ms. -/
def c8e2 : BrowserEvent :=
  { c8e1 with
    id := "c8e2"
    timestamp := 1000 }

/-- C8 witness: `b.com` event at 2000ms (domain change before it). -/
def c8e3 : BrowserEvent :=
  { base_event with
    id := "c8e3"
    type := "click"
    timestamp := 2000
    url := some "https://b.com"
    domain := some "b.com" }

/-- C8 witness: `b.com` event at 3000ms. -/
def c8e4 : BrowserEvent :=
  { c8e3 with
    id := "c8e4"
    timestamp := 3000 }

/-- C8 witness input: domains change between indices 1 and 2. -/
def c8_events : List BrowserEvent := [c8e1, c8e2, c8e3, c8e4]

/-- C9 witness: the form-filling segment of the spec's worked scenario. -/
def c9_segment : EventSegment :=
  { start_time := 0, end_time := 120000, duration_ms := 120000,
    event_types := ["page-load", "type", "type", "type", "type"],
    segment_type := "form_filling" }

/-- C10 witness: first event (click). -/
def c10e1 : BrowserEvent :=
  { base_event with
    id := "c10e1"
    type := "click"
    tab_id := some 1 }

/-- C10 witness: tab switch 100ms later on the SAME tab (the special
different-tab/5000ms clause is false here, yet a break still occurs). -/
def c10e2 : BrowserEvent :=
  { base_event with
    id := "c10e2"
    type := "tab-switch"
    timestamp := 100
    tab_id := some 1 }

/-- C10 witness input. -/
def c10_events : List BrowserEvent := [c10e1, c10e2]

/-!
General helper lemmas about the index-driven loop embeddings.
-/

/-- `getD` at an in-range index is `getElem`. -/
lemma getD_of_lt {α : Type} [Inhabited α] (l : List α) (i : Nat) (h : i < l.length) :
    l.getD i default = l[i] := by
  simp [List.getD_eq_getElem?_getD, List.getElem?_eq_getElem h]

/-- An index-driven keep/drop pass over a list yields a sublist. -/
lemma keep_filterMap_sublist {α : Type} [Inhabited α] (l : List α) (g : Nat → Bool) :
    ((List.range l.length).filterMap fun i =>
      if g i then none else some (l.getD i default)).Sublist l := by
  induction l generalizing g with
  | nil => simp
  | cons x xs ih =>
    rw [List.length_cons, List.range_succ_eq_map, List.filterMap_cons]
    have htail : ((List.range xs.length).map Nat.succ).filterMap
        (fun i => if g i then none else some ((x :: xs).getD i default)) =
        (List.range xs.length).filterMap
          (fun i => if g (i + 1) then none else some (xs.getD i default)) := by
      rw [List.filterMap_map]
      rfl
    by_cases h0 : g 0
    · simp only [h0, if_pos]
      rw [htail]
      exact (ih fun i => g (i + 1)).cons x
    · simp only [h0, if_neg, Bool.false_eq_true, not_false_iff]
      rw [htail]
      exact (ih fun i => g (i + 1)).cons₂ x

/-- Reading every index of a list back through `getElem?` reproduces it. -/
lemma filterMap_getElem?_range {α : Type} (l : List α) :
    ((List.range l.length).filterMap fun i => l[i]?) = l := by
  induction l with
  | nil => simp
  | cons x xs ih =>
    rw [List.length_cons, List.range_succ_eq_map, List.filterMap_cons]
    have htail : ((List.range xs.length).map Nat.succ).filterMap (fun i => (x :: xs)[i]?) =
        (List.range xs.length).filterMap (fun i => xs[i]?) := by
      rw [List.filterMap_map]
      exact List.filterMap_congr fun i _ => by simp
    simp [htail, ih]

/-!
C9: the confidence scorer stays in the unit interval.
-/

/-- Every entry of the weight table (including the default) is non-negative. -/
lemma event_weights_nonneg (t : String) : 0 ≤ EventSegmentationService.event_weights t := by
  unfold EventSegmentationService.event_weights
  repeat' split
  all_goals norm_num

/-- Every classification bonus (including the default) is at least one. -/
lemma type_bonuses_one_le (t : String) : 1 ≤ EventSegmentationService.type_bonuses t := by
  unfold EventSegmentationService.type_bonuses
  repeat' split
  all_goals norm_num

/-- The weight-accumulating fold never decreases its accumulator. -/
lemma foldl_weights_le (event_types : List String) :
    ∀ init : ℚ, init ≤ event_types.foldl (fun s t => s + EventSegmentationService.event_weights t) init := by
  induction event_types with
  | nil => intro init; simp
  | cons t ts ih =>
    intro init
    simp only [List.foldl_cons]
    calc init ≤ init + EventSegmentationService.event_weights t := by
          have := event_weights_nonneg t
          linarith
      _ ≤ _ := ih _

/-- C9: for every segment whose stored duration is consistent with a
non-negative time span (`end_time ≥ start_time`), the score computed by
`EventSegmentationService._calculate_confidence_scores` equals
`min (raw / 20) 1` where `raw` is the non-negative product of the per-type
weight sum, the duration multiplier and the classification bonus, and the
score lies in the closed interval `[0, 1]`. -/
theorem confidence_score_unit_interval (segment : EventSegment)
    (hse : segment.start_time ≤ segment.end_time)
    (hdur : segment.duration_ms = segment.end_time - segment.start_time) :
    0 ≤ EventSegmentationService.calculate_confidence_score segment ∧
      EventSegmentationService.calculate_confidence_score segment ≤ 1 ∧
      0 ≤ EventSegmentationService.raw_score segment ∧
      EventSegmentationService.calculate_confidence_score segment =
        min (EventSegmentationService.raw_score segment / 20) 1 := by
  have hd : (0 : Int) ≤ segment.duration_ms := by omega
  have hdq : (0 : ℚ) ≤ (segment.duration_ms : ℚ) := by exact_mod_cast hd
  have hbase : 0 ≤ EventSegmentationService.base_score segment.event_types :=
    foldl_weights_le segment.event_types 0
  have hmult : (0 : ℚ) ≤ 1 + (segment.duration_ms : ℚ) / 60000 * (1 / 10) := by
    have h60 : (0 : ℚ) ≤ (segment.duration_ms : ℚ) / 60000 := by positivity
    linarith
  have hbonus : (0 : ℚ) ≤ EventSegmentationService.type_bonuses segment.segment_type :=
    le_trans zero_le_one (type_bonuses_one_le _)
  have hraw : 0 ≤ EventSegmentationService.raw_score segment :=
    mul_nonneg (mul_nonneg hbase hmult) hbonus
  refine ⟨le_min (by positivity) zero_le_one, min_le_right _ _, hraw, rfl⟩

/-- C9 witness: the spec's worked scoring scenario (five events, two
minutes, classified `form_filling`) instantiates the theorem. -/
theorem confidence_score_unit_interval_witness :
    0 ≤ EventSegmentationService.calculate_confidence_score c9_segment ∧
      EventSegmentationService.calculate_confidence_score c9_segment ≤ 1 ∧
      0 ≤ EventSegmentationService.raw_score c9_segment ∧
      EventSegmentationService.calculate_confidence_score c9_segment =
        min (EventSegmentationService.raw_score c9_segment / 20) 1 :=
  confidence_score_unit_interval c9_segment (by decide) (by decide)

/-!
C10: a `tab-switch` event always opens a break point.
-/

/-- Membership in the break-point list of `_identify_break_points` whenever
any of the five tests fires at an in-range index. -/
lemma mem_identify_break_points (events : List BrowserEvent) (i : Nat)
    (h1 : 1 ≤ i) (h2 : i < events.length)
    (hs : BreakpointDetector.should_break events i = true) :
    i ∈ BreakpointDetector.identify_break_points events := by
  unfold BreakpointDetector.identify_break_points
  rw [if_neg (by omega)]
  refine List.mem_append.2 (Or.inl (List.mem_append.2 (Or.inr ?_)))
  refine List.mem_filter.2 ⟨?_, hs⟩
  exact List.mem_range'_1.2 ⟨h1, by omega⟩

/-- C10: a `tab-switch` event at any index `i ≥ 1` of the input produces a
break point before it, whatever its `tab_id` or time gap, because
`tab-switch` is in the context-switch indicator set; consequently
`_is_context_switch` coincides everywhere with its first test alone, and the
special different-tab/5000ms clause never decides the outcome. -/
theorem tab_switch_always_breaks (events : List BrowserEvent) (i : Nat)
    (h1 : 1 ≤ i) (h2 : i < events.length)
    (ht : (events.getD i default).type = "tab-switch") :
    i ∈ BreakpointDetector.identify_break_points events ∧
      ∀ current previous : BrowserEvent,
        BreakpointDetector.is_context_switch current previous =
          decide (current.type ∈ BreakpointDetector.context_switch_indicators) := by
  constructor
  · apply mem_identify_break_points events i h1 h2
    have hcs : BreakpointDetector.is_context_switch (events.getD i default)
        (events.getD (i - 1) default) = true := by
      unfold BreakpointDetector.is_context_switch
      rw [ht]
      rfl
    unfold BreakpointDetector.should_break
    simp only [hcs, Bool.or_true, Bool.true_or]
  · intro current previous
    by_cases hmem : current.type ∈ BreakpointDetector.context_switch_indicators
    · simp [BreakpointDetector.is_context_switch, hmem]
    · have hne : ¬(current.type = "tab-switch") := by
        intro hh
        exact hmem (by rw [hh]; simp [BreakpointDetector.context_switch_indicators])
      simp [BreakpointDetector.is_context_switch, hmem, hne]

/-- C10 witness: a same-tab `tab-switch` only 100ms after the previous event
(the special clause is false) still breaks at index 1. -/
theorem tab_switch_always_breaks_witness :
    1 ∈ BreakpointDetector.identify_break_points c10_events ∧
      ∀ current previous : BrowserEvent,
        BreakpointDetector.is_context_switch current previous =
          decide (current.type ∈ BreakpointDetector.context_switch_indicators) :=
  tab_switch_always_breaks c10_events 1 (by decide) (by decide) (by decide)

/-!
C4: the content summariser raises on any event that has a payload.
-/

/-- C4: on a page group that survives every drop filter, building
`content_summary` raises `AttributeError` at the first event whose payload
is present (`payload` is the pydantic `EventPayload` model, which has no
`.get`), and the error propagates out of
`group_events_into_page_sessions`; the claimed crash-free concatenation is
the documented intent, contradicted by the code. -/
theorem page_summary_attribute_error :
    PageService.create_page_summary [c4e1, c4e2] =
        Except.error "AttributeError: EventPayload object has no attribute get" ∧
      PageService.group_events_into_page_sessions [c4e1, c4e2] =
        Except.error "AttributeError: EventPayload object has no attribute get" :=
  ⟨rfl, rfl⟩

/-!
C3: the page aggregator's rapid-click rule is page-equality, not the
denoiser's element-identity rule.
-/

/-- C3 counterexample: two clicks on the same page but on different elements
(`b1` versus `b2`), 100ms apart: the page-local filter drops the second
click although the section 4.1 rule (same element) does not apply. -/
theorem page_rapid_click_differs_from_element_rule :
    PageService.is_rapid_click c3e2 [c3e1, c3e2] 1 = true ∧
      claim_page_rapid_click c3e2 c3e1 = false := by decide

/-- C3 amended: the page-local filter drops a click exactly when the
previous input event is a click at most 200ms older on the same `url` and
the same `tab_id` — element identity is not consulted. -/
theorem page_rapid_click_same_page_rule (event : BrowserEvent) (events : List BrowserEvent)
    (index : Nat) :
    PageService.is_rapid_click event events index =
      (decide (index ≠ 0) &&
        amended_page_rapid_click event (events.getD (index - 1) default)) := by
  unfold PageService.is_rapid_click amended_page_rapid_click
  generalize events.getD (index - 1) default = prev
  by_cases h0 : index = 0
  · simp [h0]
  by_cases hc : event.type = "click"
  · rw [if_neg (by simp [hc, h0])]
    simp only []
    by_cases hpc : prev.type = "click"
    · rw [if_neg (by simp [hpc])]
      by_cases hgap : PageService.rapid_click_threshold_ms <
          event.timestamp - prev.timestamp
      · rw [if_pos hgap]
        have hnle : ¬(event.timestamp - prev.timestamp ≤
            PageService.rapid_click_threshold_ms) := by omega
        simp [hnle]
      · rw [if_neg hgap]
        have hle : event.timestamp - prev.timestamp ≤
            PageService.rapid_click_threshold_ms := by omega
        simp [h0, hc, hpc, hle]
    · rw [if_pos (by simp [hpc])]
      simp [hpc]
  · rw [if_pos (Or.inl hc)]
    simp [hc]

/-!
C2: the accidental filter measures gaps against the INPUT predecessor.
-/

/-- C2 counterexample: on events at 0ms, 50ms and 120ms the filter drops the
third event (70ms after the — itself dropped — second event) although its
gap to the last retained event is 120ms ≥ 100ms, so the claimed
retained-predecessor rule predicts it is kept. -/
theorem accidental_filter_differs_from_retained_rule :
    DenoiseService.remove_accidental_events [c2e0, c2e1, c2e2] = [c2e0] ∧
      claim_accidental_filter [c2e0, c2e1, c2e2] = [c2e0, c2e2] := by decide

/-- Index-driven tail of the accidental filter versus the recursive
input-predecessor scan, from position `k ≥ 1` onwards. -/
lemma accidental_go_eq (events : List BrowserEvent) :
    ∀ n k, n = events.length - k → 1 ≤ k →
      ((List.range' k n).filterMap fun i =>
          let e := events.getD i default
          if DenoiseService.is_accidental_event e events i then none else some e) =
        amended_accidental_go (events.getD (k - 1) default) (events.drop k) := by
  intro n
  induction n with
  | zero =>
    intro k hn _
    have hlen : events.length ≤ k := by omega
    rw [List.drop_eq_nil_of_le hlen]
    rfl
  | succ m ih =>
    intro k hn hk
    have hklt : k < events.length := by omega
    have hgk : events.getD k default = events[k] := getD_of_lt events k hklt
    have hdrop : events.drop k = events[k] :: events.drop (k + 1) :=
      List.drop_eq_getElem_cons hklt
    have hih := ih (k + 1) (by omega) (by omega)
    rw [show k + 1 - 1 = k from rfl, hgk] at hih
    have hacc : DenoiseService.is_accidental_event (events.getD k default) events k =
        decide (events[k].timestamp - (events.getD (k - 1) default).timestamp <
          DenoiseService.accidental_event_threshold_ms) := by
      unfold DenoiseService.is_accidental_event
      rw [if_neg (by omega), hgk]
    rw [List.range'_succ]
    by_cases hgap : events[k].timestamp - (events.getD (k - 1) default).timestamp <
        DenoiseService.accidental_event_threshold_ms
    · rw [List.filterMap_cons]
      simp only [hacc, decide_eq_true_eq, hgap, if_true]
      rw [hih, hdrop]
      simp only [amended_accidental_go]
      rw [if_pos hgap]
    · rw [List.filterMap_cons]
      simp only [hacc, decide_eq_true_eq, hgap, if_false]
      rw [hgk, hih, hdrop]
      simp only [amended_accidental_go]
      rw [if_neg hgap]

/-- C2 amended: an event of the accidental filter's input (other than the
first) is dropped exactly when its gap to the immediately preceding event of
the INPUT (whether or not that event was retained) is below 100ms; the
filter coincides with the recursive input-predecessor scan. -/
theorem remove_accidental_events_input_predecessor (events : List BrowserEvent) :
    DenoiseService.remove_accidental_events events = amended_accidental_filter events := by
  match events with
  | [] => rfl
  | [e] => rfl
  | e1 :: e2 :: es =>
    unfold DenoiseService.remove_accidental_events DenoiseService.apply_filter
    rw [if_neg (by simp)]
    have hlen : (e1 :: e2 :: es).length = (es.length + 1) + 1 := by simp
    rw [List.range_eq_range', hlen, List.range'_succ, List.filterMap_cons]
    have hzero : DenoiseService.is_accidental_event
        ((e1 :: e2 :: es).getD 0 default) (e1 :: e2 :: es) 0 = false := rfl
    simp only [hzero, Bool.false_eq_true, if_false]
    have := accidental_go_eq (e1 :: e2 :: es) (es.length + 1) 1 (by simp) (by omega)
    rw [this]
    rfl

/-!
C1: the denoiser is not idempotent; a second pass returns a subsequence.
-/

/-- Every `while`-loop filter returns a sublist of its input. -/
lemma apply_filter_sublist (pred : BrowserEvent → List BrowserEvent → Nat → Bool)
    (events : List BrowserEvent) :
    (DenoiseService.apply_filter pred events).Sublist events := by
  unfold DenoiseService.apply_filter
  split
  · exact List.Sublist.refl _
  · exact keep_filterMap_sublist events fun i => pred (events.getD i default) events i

/-- The denoiser output is a sublist of the timestamp-sorted input. -/
lemma denoise_events_sublist_sorted (events : List BrowserEvent) :
    (DenoiseService.denoise_events events).Sublist (sort_by_timestamp events) := by
  unfold DenoiseService.denoise_events
  split
  · rename_i h
    rw [h]
    exact List.Sublist.refl _
  · exact (apply_filter_sublist _ _).trans ((apply_filter_sublist _ _).trans
      ((apply_filter_sublist _ _).trans ((apply_filter_sublist _ _).trans
        (apply_filter_sublist _ _))))

/-- The denoiser output is sorted by timestamp. -/
lemma denoise_events_sorted (events : List BrowserEvent) :
    List.Sorted ts_le (DenoiseService.denoise_events events) :=
  List.Pairwise.sublist (denoise_events_sublist_sorted events)
    (List.sorted_insertionSort ts_le events)

/-- C1 counterexample: on a click/tab-switch/click/tab-switch sequence the
transient-tab-switch and accidental filters drop only the first switch, so
the first pass keeps both clicks (their rapid-click test saw the switch as
input predecessor); the second pass sees the clicks adjacent, 200ms apart on
the same element, and drops the second one — `denoise(denoise(E)) ≠
denoise(E)`. -/
theorem denoise_not_idempotent :
    DenoiseService.denoise_events (DenoiseService.denoise_events c1_events) ≠
      DenoiseService.denoise_events c1_events := by decide

/-- C1 amended: a second run of the denoiser on its own output returns a
subsequence of that output (it may remove further events; the two agree only
up to this subsequence relation, not up to equality). -/
theorem denoise_second_pass_sublist (events : List BrowserEvent) :
    (DenoiseService.denoise_events (DenoiseService.denoise_events events)).Sublist
      (DenoiseService.denoise_events events) := by
  by_cases h : DenoiseService.denoise_events events = []
  · rw [h]
    exact List.Sublist.refl _
  · have hsort : sort_by_timestamp (DenoiseService.denoise_events events) =
        DenoiseService.denoise_events events :=
      (denoise_events_sorted events).insertionSort_eq
    set D := DenoiseService.denoise_events events with hD
    rw [DenoiseService.denoise_events]
    rw [if_neg h]
    rw [hsort]
    exact (apply_filter_sublist _ _).trans ((apply_filter_sublist _ _).trans
      ((apply_filter_sublist _ _).trans ((apply_filter_sublist _ _).trans
        (apply_filter_sublist _ _))))

/-!
C6: the deduplicator's oracle-failure fallback keeps every new workflow.
-/

/-- Processing the fallback partition (one singleton group per index, in
order) reproduces the workflow list from position `k` on. -/
lemma process_go_singletons (workflows : List WorkflowSchema) :
    ∀ n k, n = workflows.length - k →
      WorkflowDeduplicator.process_go workflows ((List.range' k n).map fun i => [i]) =
        workflows.drop k := by
  intro n
  induction n with
  | zero =>
    intro k hn
    rw [List.drop_eq_nil_of_le (by omega)]
    rfl
  | succ m ih =>
    intro k hn
    have hk : k < workflows.length := by omega
    rw [List.range'_succ, List.map_cons]
    rw [WorkflowDeduplicator.process_go]
    rw [if_neg (by simp)]
    have hfm : ([k].filterMap fun i => workflows[i]?) = [workflows[k]] := by
      simp [List.getElem?_eq_getElem hk]
    rw [hfm]
    rw [ih (k + 1) (by omega)]
    exact (List.drop_eq_getElem_cons hk).symm

/-- C6: whenever the similarity-oracle call fails or its response is not
parsable JSON, within-batch deduplication falls back to one singleton group
per workflow and returns the batch unchanged, and the batched comparison
against existing workflows likewise keeps every new workflow; the failure is
absorbed, never propagated.  In particular two identical new workflows both
survive. -/
theorem dedup_fallback_keeps_all
    (workflows new_batch : List WorkflowSchema)
    (existing_chunks : List (List ExistingCompact))
    (outcome : WorkflowDeduplicator.OracleOutcome)
    (oracle : List WorkflowSchema → List ExistingCompact → WorkflowDeduplicator.OracleOutcome)
    (hout : ∀ g, outcome ≠ WorkflowDeduplicator.OracleOutcome.parsed g)
    (horacle : ∀ ws chunk g, oracle ws chunk ≠ WorkflowDeduplicator.OracleOutcome.parsed g) :
    WorkflowDeduplicator.deduplicate_within_domain workflows outcome = workflows ∧
      WorkflowDeduplicator.compare_batch_against_existing oracle new_batch existing_chunks =
        new_batch := by
  have hfall : WorkflowDeduplicator.analyze_workflow_similarities workflows.length outcome =
      (List.range workflows.length).map fun i => [i] := by
    cases outcome with
    | parsed g => exact absurd rfl (hout g)
    | call_failed => rfl
    | unparsable r => rfl
  constructor
  · unfold WorkflowDeduplicator.deduplicate_within_domain
    split
    · rfl
    · unfold WorkflowDeduplicator.process_similarity_analysis
      rw [hfall, List.range_eq_range']
      exact process_go_singletons workflows workflows.length 0 (by omega)
  · have key : ∀ chunks remaining,
        WorkflowDeduplicator.compare_batch_go oracle remaining chunks = remaining := by
      intro chunks
      induction chunks with
      | nil => intro remaining; rfl
      | cons chunk rest ih =>
        intro remaining
        rw [WorkflowDeduplicator.compare_batch_go]
        split
        · rfl
        · have hfb : WorkflowDeduplicator.analyze_batch_deduplication remaining.length
              (oracle remaining chunk) = List.range remaining.length := by
            cases hx : oracle remaining chunk with
            | parsed g => exact absurd hx (horacle _ _ g)
            | call_failed => rfl
            | unparsable r => rfl
          simp only [hfb]
          rw [filterMap_getElem?_range]
          exact ih remaining
    exact key existing_chunks new_batch

/-- C6 witness: two identical workflows in one batch, oracle unreachable for
both the within-batch call and the against-existing call — both copies
survive both stages. -/
theorem dedup_fallback_keeps_all_witness :
    WorkflowDeduplicator.deduplicate_within_domain [c6_wf, c6_wf]
        WorkflowDeduplicator.OracleOutcome.call_failed = [c6_wf, c6_wf] ∧
      WorkflowDeduplicator.compare_batch_against_existing
          (fun _ _ => WorkflowDeduplicator.OracleOutcome.call_failed) [c6_wf, c6_wf]
          [[c6_existing]] = [c6_wf, c6_wf] :=
  dedup_fallback_keeps_all [c6_wf, c6_wf] [c6_wf, c6_wf] [[c6_existing]]
    WorkflowDeduplicator.OracleOutcome.call_failed
    (fun _ _ => WorkflowDeduplicator.OracleOutcome.call_failed)
    (fun _ h => WorkflowDeduplicator.OracleOutcome.noConfusion h)
    (fun _ _ _ h => WorkflowDeduplicator.OracleOutcome.noConfusion h)

/-!
C7: representative selection maximises the quality score, first wins ties.
-/

/-- Invariant of the `_select_best_workflow_from_group` scan: the result is a
member of `best :: rest`, carries the maximal quality score, and is the
FIRST position attaining that score (every earlier position scores strictly
less). -/
lemma select_best_aux_spec (rest : List WorkflowSchema) :
    ∀ best : WorkflowSchema,
      WorkflowDeduplicator.select_best_aux best rest ∈ best :: rest ∧
        (∀ w ∈ best :: rest, WorkflowDeduplicator.calculate_workflow_quality_score w ≤
          WorkflowDeduplicator.calculate_workflow_quality_score
            (WorkflowDeduplicator.select_best_aux best rest)) ∧
        ∃ i, i < (best :: rest).length ∧
          (best :: rest).getD i default = WorkflowDeduplicator.select_best_aux best rest ∧
          ∀ j, j < i → WorkflowDeduplicator.calculate_workflow_quality_score
              ((best :: rest).getD j default) <
            WorkflowDeduplicator.calculate_workflow_quality_score
              (WorkflowDeduplicator.select_best_aux best rest) := by
  induction rest with
  | nil =>
    intro best
    refine ⟨List.mem_singleton.2 rfl, ?_, 0, by simp, rfl, by omega⟩
    intro w hw
    rw [List.mem_singleton.1 hw]
    exact le_refl _
  | cons x rest ih =>
    intro best
    rw [WorkflowDeduplicator.select_best_aux]
    by_cases hlt : WorkflowDeduplicator.calculate_workflow_quality_score best <
        WorkflowDeduplicator.calculate_workflow_quality_score x
    · rw [if_pos hlt]
      obtain ⟨hmem, hub, i, hi, hgi, hfirst⟩ := ih x
      refine ⟨List.mem_cons_of_mem best hmem, ?_, i + 1, by simpa using hi, by simpa using hgi, ?_⟩
      · intro w hw
        rcases List.mem_cons.1 hw with hwb | hwt
        · rw [hwb]
          exact le_of_lt (lt_of_lt_of_le hlt (hub x (List.mem_cons_self x rest)))
        · exact hub w hwt
      · intro j hj
        match j, hj with
        | 0, _ =>
          simpa using lt_of_lt_of_le hlt (hub x (List.mem_cons_self x rest))
        | j' + 1, hj =>
          simpa using hfirst j' (by omega)
    · rw [if_neg hlt]
      obtain ⟨hmem, hub, i, hi, hgi, hfirst⟩ := ih best
      have hxle : WorkflowDeduplicator.calculate_workflow_quality_score x ≤
          WorkflowDeduplicator.calculate_workflow_quality_score
            (WorkflowDeduplicator.select_best_aux best rest) :=
        le_trans (not_lt.1 hlt) (hub best (List.mem_cons_self best rest))
      refine ⟨?_, ?_, ?_⟩
      · rcases List.mem_cons.1 hmem with hb | hr
        · rw [hb]
          exact List.mem_cons_self best (x :: rest)
        · exact List.mem_cons_of_mem best (List.mem_cons_of_mem x hr)
      · intro w hw
        rcases List.mem_cons.1 hw with hwb | hwt
        · rw [hwb]
          exact hub best (List.mem_cons_self best rest)
        · rcases List.mem_cons.1 hwt with hwx | hwr
          · rw [hwx]
            exact hxle
          · exact hub w (List.mem_cons_of_mem best hwr)
      · match i, hi, hgi, hfirst with
        | 0, _, hgi, _ =>
          refine ⟨0, by simp, by simpa using hgi, by omega⟩
        | i' + 1, hi, hgi, hfirst =>
          refine ⟨i' + 2, by simpa using hi, by simpa using hgi, ?_⟩
          intro j hj
          match j with
          | 0 => simpa using hfirst 0 (by omega)
          | 1 =>
            have h0 : WorkflowDeduplicator.calculate_workflow_quality_score best <
                WorkflowDeduplicator.calculate_workflow_quality_score
                  (WorkflowDeduplicator.select_best_aux best rest) := by
              simpa using hfirst 0 (by omega)
            simpa using lt_of_le_of_lt (not_lt.1 hlt) h0
          | j'' + 2 => simpa using hfirst (j'' + 1) (by omega)

/-- C7: for every group of two or more similar workflows, the selected
representative is a member with the maximal quality score
`0.1 * steps + 0.2 * tool references + 0.01 * summary length + 0.5
non-wildcard url bonus`, and on ties the first-encountered member wins
(every earlier member scores strictly less). -/
theorem select_best_quality_and_stability (group_workflows : List WorkflowSchema)
    (h : 2 ≤ group_workflows.length) :
    ∃ best, WorkflowDeduplicator.select_best_workflow_from_group group_workflows = some best ∧
      best ∈ group_workflows ∧
      (∀ w ∈ group_workflows, WorkflowDeduplicator.calculate_workflow_quality_score w ≤
        WorkflowDeduplicator.calculate_workflow_quality_score best) ∧
      ∃ i, i < group_workflows.length ∧ group_workflows.getD i default = best ∧
        ∀ j, j < i →
          WorkflowDeduplicator.calculate_workflow_quality_score
              (group_workflows.getD j default) <
            WorkflowDeduplicator.calculate_workflow_quality_score best := by
  match group_workflows, h with
  | w1 :: w2 :: ws, _ =>
    obtain ⟨hmem, hub, hfirst⟩ := select_best_aux_spec (w2 :: ws) w1
    exact ⟨_, rfl, hmem, hub, hfirst⟩

/-- C7 witness: a two-element group where the second workflow scores higher
(longer summary, specific URL pattern). -/
theorem select_best_quality_and_stability_witness :
    ∃ best, WorkflowDeduplicator.select_best_workflow_from_group [c7_wa, c7_wb] = some best ∧
      best ∈ [c7_wa, c7_wb] ∧
      (∀ w ∈ [c7_wa, c7_wb], WorkflowDeduplicator.calculate_workflow_quality_score w ≤
        WorkflowDeduplicator.calculate_workflow_quality_score best) ∧
      ∃ i, i < [c7_wa, c7_wb].length ∧ [c7_wa, c7_wb].getD i default = best ∧
        ∀ j, j < i →
          WorkflowDeduplicator.calculate_workflow_quality_score
              ([c7_wa, c7_wb].getD j default) <
            WorkflowDeduplicator.calculate_workflow_quality_score best :=
  select_best_quality_and_stability [c7_wa, c7_wb] (by decide)

/-!
C8: a domain change between adjacent events is always a segment boundary.
-/

/-- The break-point list of `_identify_break_points` is strictly increasing
(for inputs of at least two events). -/
lemma break_points_pairwise (events : List BrowserEvent) (h : 2 ≤ events.length) :
    (BreakpointDetector.identify_break_points events).Pairwise (· < ·) := by
  unfold BreakpointDetector.identify_break_points
  rw [if_neg (by omega)]
  have hinner : ∀ x ∈ (List.range' 1 (events.length - 1)).filter
      (BreakpointDetector.should_break events), 1 ≤ x ∧ x < events.length := by
    intro x hx
    have := List.mem_range'_1.1 (List.mem_of_mem_filter hx)
    omega
  rw [List.pairwise_append]
  refine ⟨?_, List.pairwise_singleton _ _, ?_⟩
  · rw [List.singleton_append, List.pairwise_cons]
    refine ⟨fun y hy => by have := hinner y hy; omega, ?_⟩
    exact List.Pairwise.sublist (List.filter_sublist _) (List.pairwise_lt_range' 1 (events.length - 1))
  · intro a ha b hb
    rw [List.mem_singleton.1 hb]
    rcases List.mem_append.1 ha with h0 | hf
    · rw [List.mem_singleton.1 h0]
      omega
    · have := hinner a hf
      omega

/-- In a strictly increasing list no member lies strictly between two
adjacent entries. -/
lemma pairwise_adjacent_no_between (l : List Nat) (hl : l.Pairwise (· < ·)) (k a b c : Nat)
    (ha : l[k]? = some a) (hb : l[k + 1]? = some b) (hc : c ∈ l) : ¬(a < c ∧ c < b) := by
  rintro ⟨hac, hcb⟩
  obtain ⟨⟨m, hm⟩, hgm⟩ := List.mem_iff_get.1 hc
  rcases List.getElem?_eq_some.1 ha with ⟨hklen, hkv⟩
  rcases List.getElem?_eq_some.1 hb with ⟨hk1len, hk1v⟩
  have hmono := List.pairwise_iff_get.1 hl
  rcases lt_trichotomy m k with hmk | hmk | hmk
  · have hx : l.get ⟨m, hm⟩ < l.get ⟨k, hklen⟩ := hmono ⟨m, hm⟩ ⟨k, hklen⟩ hmk
    rw [hgm] at hx
    simp only [List.get_eq_getElem, hkv] at hx
    omega
  · subst hmk
    have hx : c = a := by
      rw [← hgm]
      simp only [List.get_eq_getElem, hkv]
    omega
  · have hk1m : k + 1 ≤ m := hmk
    rcases eq_or_lt_of_le hk1m with heq | hlt
    · have hx : c = b := by
        rw [← hgm]
        simp only [List.get_eq_getElem, ← heq, hk1v]
      omega
    · have hx : l.get ⟨k + 1, hk1len⟩ < l.get ⟨m, hm⟩ := hmono ⟨k + 1, hk1len⟩ ⟨m, hm⟩ hlt
      rw [hgm] at hx
      simp only [List.get_eq_getElem, hk1v] at hx
      omega

/-- Every segment returned by `_create_segments` is the slice of the input
between two ADJACENT break points, and has at least two events. -/
lemma create_segments_mem (events : List BrowserEvent) :
    ∀ bps seg, seg ∈ BreakpointDetector.create_segments_go events bps →
      ∃ k a b, bps[k]? = some a ∧ bps[k + 1]? = some b ∧
        seg = (events.drop a).take (b - a) ∧ 2 ≤ seg.length := by
  intro bps
  induction bps with
  | nil => intro seg hseg; cases hseg
  | cons a tail ih =>
    cases tail with
    | nil => intro seg hseg; cases hseg
    | cons b rest =>
      intro seg hseg
      rw [BreakpointDetector.create_segments_go] at hseg
      rcases List.mem_append.1 hseg with hleft | hright
      · by_cases h1 : b - a < 1
        · rw [if_pos h1] at hleft
          cases hleft
        · rw [if_neg h1] at hleft
          by_cases h2 : ((events.drop a).take (b - a)).length < 2
          · rw [if_pos h2] at hleft
            cases hleft
          · rw [if_neg h2] at hleft
            refine ⟨0, a, b, rfl, by simp, List.mem_singleton.1 hleft, ?_⟩
            rw [List.mem_singleton.1 hleft]
            omega
      · obtain ⟨k, a', b', hka, hkb, hseq, hlen⟩ := ih seg hright
        exact ⟨k + 1, a', b', by simpa using hka, by simpa using hkb, hseq, hlen⟩

/-- Index arithmetic for a segment slice. -/
lemma slice_getD (events : List BrowserEvent) (a b j : Nat)
    (hj : j < ((events.drop a).take (b - a)).length) :
    ((events.drop a).take (b - a)).getD j default = events.getD (a + j) default ∧
      a + j < events.length ∧ a + j < b := by
  have hlen : ((events.drop a).take (b - a)).length = min (b - a) (events.length - a) := by
    simp [List.length_take, List.length_drop]
  have hjb : j < b - a := by omega
  have hjl : j < events.length - a := by omega
  refine ⟨?_, by omega, by omega⟩
  have h1 : ((events.drop a).take (b - a)).getD j default = (events.drop a).getD j default := by
    rw [getD_of_lt _ _ hj, getD_of_lt _ _ (by simpa [List.length_drop] using hjl)]
    rw [List.getElem_take]
  rw [h1, getD_of_lt _ _ (by simpa [List.length_drop] using hjl),
    getD_of_lt _ _ (by omega : a + j < events.length)]
  rw [List.getElem_drop]

/-- No returned segment contains an adjacent domain change. -/
lemma segments_no_domain_change (events : List BrowserEvent) :
    ∀ seg ∈ BreakpointDetector.create_segments events
        (BreakpointDetector.identify_break_points events),
      ∀ j, j + 1 < seg.length →
        BreakpointDetector.is_domain_change (seg.getD (j + 1) default)
          (seg.getD j default) = false := by
  intro seg hseg j hj
  by_contra hdc
  rw [Bool.not_eq_false] at hdc
  obtain ⟨k, a, b, hka, hkb, hseq, _⟩ := create_segments_mem events _ seg hseg
  subst hseq
  obtain ⟨hg1, hb1, hlt1⟩ := slice_getD events a b j (by omega)
  obtain ⟨hg2, hb2, hlt2⟩ := slice_getD events a b (j + 1) hj
  rw [hg1, hg2] at hdc
  have hsb : BreakpointDetector.should_break events (a + j + 1) = true := by
    unfold BreakpointDetector.should_break
    have hcur : BreakpointDetector.is_domain_change (events.getD (a + j + 1) default)
        (events.getD (a + j + 1 - 1) default) = true := by
      simpa [Nat.add_sub_cancel] using hdc
    simp only [Nat.add_sub_cancel, List.getD_eq_getElem?_getD] at hcur
    simp [hcur]
  have hmem : (a + j + 1) ∈ BreakpointDetector.identify_break_points events :=
    mem_identify_break_points events _ (by omega) (by omega) hsb
  have hpw : (BreakpointDetector.identify_break_points events).Pairwise (· < ·) :=
    break_points_pairwise events (by omega)
  exact pairwise_adjacent_no_between _ hpw k a b _ hka hkb hmem ⟨by omega, by omega⟩

/-- C8: whenever two adjacent events of the input have non-null differing
domains, a break point is placed between them, and no returned segment
contains the pair as an adjacent couple (segments shorter than two events
are dropped, never merged across the boundary). -/
theorem domain_change_always_boundary (events : List BrowserEvent) (i : Nat)
    (h1 : 1 ≤ i) (h2 : i < events.length)
    (hd : BreakpointDetector.is_domain_change (events.getD i default)
      (events.getD (i - 1) default) = true) :
    i ∈ BreakpointDetector.identify_break_points events ∧
      ∀ seg ∈ BreakpointDetector.create_segments events
          (BreakpointDetector.identify_break_points events),
        ∀ j, j + 1 < seg.length →
          ¬(seg.getD j default = events.getD (i - 1) default ∧
            seg.getD (j + 1) default = events.getD i default) := by
  constructor
  · apply mem_identify_break_points events i h1 h2
    unfold BreakpointDetector.should_break
    have hd2 := hd
    simp only [List.getD_eq_getElem?_getD] at hd2
    simp [hd2]
  · rintro seg hseg j hj ⟨hq1, hq2⟩
    have hfalse := segments_no_domain_change events seg hseg j hj
    rw [hq1, hq2, hd] at hfalse
    cases hfalse

/-- C8 witness: four events with the domain changing from `a.com` to `b.com`
between input indices 1 and 2. -/
theorem domain_change_always_boundary_witness :
    2 ∈ BreakpointDetector.identify_break_points c8_events ∧
      ∀ seg ∈ BreakpointDetector.create_segments c8_events
          (BreakpointDetector.identify_break_points c8_events),
        ∀ j, j + 1 < seg.length →
          ¬(seg.getD j default = c8_events.getD 1 default ∧
            seg.getD (j + 1) default = c8_events.getD 2 default) :=
  domain_change_always_boundary c8_events 2 (by decide) (by decide) (by decide)

/-!
C5: page-session `event_count` totals partition the surviving input events.
-/

/-- Keys produced by the insertion-ordered grouping dict never repeat a key
already seen. -/
lemma focc_not_seen : ∀ (es : List BrowserEvent) (seen : List String),
    ∀ k ∈ PageService.first_occ_keys_from seen es, k ∉ seen := by
  intro es
  induction es with
  | nil =>
    intro seen k hk
    simp [PageService.first_occ_keys_from] at hk
  | cons e es ih =>
    intro seen k hk
    rw [PageService.first_occ_keys_from] at hk
    by_cases hm : PageService.page_key e ∈ seen
    · rw [if_pos hm] at hk
      exact ih seen k hk
    · rw [if_neg hm] at hk
      rcases List.mem_cons.1 hk with hke | hkt
      · subst hke
        exact hm
      · intro hks
        exact ih _ k hkt (List.mem_cons_of_mem _ hks)

/-- The grouping key list has no duplicates. -/
lemma focc_nodup : ∀ (es : List BrowserEvent) (seen : List String),
    (PageService.first_occ_keys_from seen es).Nodup := by
  intro es
  induction es with
  | nil => intro seen; simp [PageService.first_occ_keys_from]
  | cons e es ih =>
    intro seen
    rw [PageService.first_occ_keys_from]
    by_cases hm : PageService.page_key e ∈ seen
    · rw [if_pos hm]
      exact ih seen
    · rw [if_neg hm]
      refine List.nodup_cons.2 ⟨?_, ih _⟩
      intro hk
      exact focc_not_seen es _ _ hk (List.mem_cons_self _ _)

/-- Every event's key is either already seen or in the produced key list. -/
lemma focc_covers : ∀ (es : List BrowserEvent) (seen : List String) (e : BrowserEvent),
    e ∈ es → PageService.page_key e ∈ seen ∨
      PageService.page_key e ∈ PageService.first_occ_keys_from seen es := by
  intro es
  induction es with
  | nil => intro seen e he; cases he
  | cons e0 es ih =>
    intro seen e he
    rw [PageService.first_occ_keys_from]
    by_cases hm : PageService.page_key e0 ∈ seen
    · rw [if_pos hm]
      rcases List.mem_cons.1 he with rfl | ht
      · exact Or.inl hm
      · exact ih seen e ht
    · rw [if_neg hm]
      rcases List.mem_cons.1 he with rfl | ht
      · exact Or.inr (List.mem_cons_self _ _)
      · rcases ih (PageService.page_key e0 :: seen) e ht with hs | hf
        · rcases List.mem_cons.1 hs with heq | hseen
          · exact Or.inr (heq ▸ List.mem_cons_self _ _)
          · exact Or.inl hseen
        · exact Or.inr (List.mem_cons_of_mem _ hf)

/-- A surviving page session reports the PRE-denoise size of its group. -/
lemma create_page_summary_event_count (g : List BrowserEvent) (s : PageSession)
    (h : PageService.create_page_summary g = Except.ok (some s)) :
    s.event_count = g.length := by
  unfold PageService.create_page_summary at h
  split at h
  · simp at h
  · dsimp only [] at h
    split at h
    · simp at h
    · split at h
      · simp at h
      · split at h
        · simp at h
        · simp only [Except.ok.injEq, Option.some.injEq] at h
          rw [← h]

/-- Summing `event_count` over the produced sessions equals summing group
sizes over the groups whose summary survived. -/
lemma page_sessions_go_sum (gs : List (List BrowserEvent)) (sessions : List PageSession)
    (h : PageService.page_sessions_go gs = Except.ok sessions) :
    (sessions.map fun s => s.event_count).sum =
      (gs.map fun g =>
        match PageService.create_page_summary g with
        | .ok (some _) => g.length
        | _ => 0).sum := by
  induction gs generalizing sessions with
  | nil =>
    simp only [PageService.page_sessions_go, Except.ok.injEq] at h
    subst h
    simp
  | cons g gs ih =>
    rw [PageService.page_sessions_go] at h
    cases hcp : PageService.create_page_summary g with
    | error e =>
      rw [hcp] at h
      simp at h
    | ok o =>
      rw [hcp] at h
      cases o with
      | none =>
        rw [ih sessions h]
        simp [hcp]
      | some s0 =>
        cases hgo : PageService.page_sessions_go gs with
        | error e =>
          rw [hgo] at h
          simp at h
        | ok rest =>
          rw [hgo] at h
          simp only [Except.ok.injEq] at h
          subst h
          simp only [List.map_cons, List.sum_cons]
          rw [ih rest hgo, create_page_summary_event_count g s0 hcp]
          simp [hcp]

/-- Sum over a duplicate-free key list of an indicator concentrated at one
contained key. -/
lemma sum_map_ite_key (K : List String) (k0 : String) (c : String → Nat) :
    K.Nodup → k0 ∈ K → (K.map fun k => if k0 = k then c k else 0).sum = c k0 := by
  induction K with
  | nil => intro _ hk; cases hk
  | cons k K ih =>
    intro hnd hk
    simp only [List.map_cons, List.sum_cons]
    by_cases hek : k0 = k
    · subst hek
      rw [if_pos rfl]
      have hzero : (K.map fun k => if k0 = k then c k else 0).sum = 0 := by
        apply List.sum_eq_zero
        intro x hx
        rcases List.mem_map.1 hx with ⟨k', hk', hval⟩
        have : k0 ≠ k' := by
          intro heq
          exact (List.nodup_cons.1 hnd).1 (heq ▸ hk')
        rw [← hval, if_neg this]
      omega
    · rw [if_neg hek]
      have hk' : k0 ∈ K := by
        rcases List.mem_cons.1 hk with heq | hm
        · exact absurd heq hek
        · exact hm
      rw [ih (List.nodup_cons.1 hnd).2 hk']
      omega

/-- Pointwise sums distribute over a mapped addition. -/
lemma sum_map_addf (K : List String) (f g : String → Nat) :
    (K.map fun k => f k + g k).sum = (K.map f).sum + (K.map g).sum := by
  induction K with
  | nil => simp
  | cons k K ih =>
    simp only [List.map_cons, List.sum_cons, ih]
    omega

/-- Partition counting: counting events whose key satisfies `q` equals
summing, over a duplicate-free covering key list, the per-key event counts
of the keys satisfying `q`. -/
lemma countP_key_partition (q : String → Bool) :
    ∀ (events : List BrowserEvent) (K : List String),
      K.Nodup → (∀ e ∈ events, PageService.page_key e ∈ K) →
      events.countP (fun e => q (PageService.page_key e)) =
        (K.map fun k =>
          if q k then events.countP (fun e => decide (PageService.page_key e = k)) else 0).sum := by
  intro events
  induction events with
  | nil =>
    intro K _ _
    rw [List.countP_nil]
    symm
    apply List.sum_eq_zero
    intro x hx
    rcases List.mem_map.1 hx with ⟨k, _, hval⟩
    rw [← hval]
    simp [List.countP_nil]
  | cons e es ih =>
    intro K hnd hcov
    have hterm : ∀ k ∈ K,
        (if q k then (e :: es).countP (fun x => decide (PageService.page_key x = k)) else 0) =
          (if q k then es.countP (fun x => decide (PageService.page_key x = k)) else 0) +
            (if PageService.page_key e = k then (if q k then 1 else 0) else 0) := by
      intro k _
      by_cases hq : q k
      · by_cases hke : PageService.page_key e = k
        · simp [List.countP_cons, hq, hke]
        · simp [List.countP_cons, hq, hke]
      · simp [hq]
    rw [List.map_congr_left hterm, sum_map_addf]
    rw [← ih K hnd fun x hx => hcov x (List.mem_cons_of_mem e hx)]
    rw [sum_map_ite_key K (PageService.page_key e) _ hnd (hcov e (List.mem_cons_self e es))]
    rw [List.countP_cons]

/-- C5: whenever the page aggregator returns (without the summariser
raising), the sum of `event_count` over all returned PageSessions equals the
number of input events whose `(url, tab_id)` group survived the drop filters
(denoised-to-empty and minimum page duration): `event_count` is the
pre-denoise group size, every input event is counted in exactly the session
of its own group, and dropped groups contribute nothing. -/
theorem page_session_event_count_partition (events : List BrowserEvent)
    (sessions : List PageSession)
    (h : PageService.group_events_into_page_sessions events = Except.ok sessions) :
    (sessions.map fun s => s.event_count).sum =
      events.countP fun e => page_group_survived events e := by
  unfold PageService.group_events_into_page_sessions at h
  by_cases hne : events = []
  · subst hne
    rw [if_pos rfl] at h
    simp only [Except.ok.injEq] at h
    subst h
    simp
  · rw [if_neg hne] at h
    rw [page_sessions_go_sum _ sessions h]
    unfold PageService.group_events_by_page
    rw [List.map_map]
    unfold page_group_survived
    rw [countP_key_partition
      (fun k => match PageService.create_page_summary
          (sort_by_timestamp (events.filter fun x => decide (PageService.page_key x = k))) with
        | .ok (some _) => true
        | _ => false)
      events (PageService.first_occ_keys events) (focc_nodup events [])
      (fun e he => (focc_covers events [] e he).resolve_left (by simp))]
    refine congrArg List.sum (List.map_congr_left ?_)
    intro k _
    cases hm : PageService.create_page_summary
        (sort_by_timestamp (events.filter fun x => decide (PageService.page_key x = k))) with
    | error e0 => simp [Function.comp, hm]
    | ok o =>
      cases o with
      | none => simp [Function.comp, hm]
      | some s0 =>
        simp only [Function.comp, hm]
        simp [sort_by_timestamp, List.length_insertionSort, List.countP_eq_length_filter]

/-- C5 witness: three events in two groups; the `a.com` group (two events)
survives, the single-event `b.com` group is dropped by the duration filter —
the session counts 2 events and exactly 2 input events lie in surviving
groups. -/
theorem page_session_event_count_partition_witness :
    (([c5_session].map fun s => s.event_count).sum =
      c5_events.countP fun e => page_group_survived c5_events e) :=
  page_session_event_count_partition c5_events [c5_session] (by rfl)
